import Mathlib

/-
Shallow embedding of the pet-clinic-event-processor SQS consumers.

The repository contains three variants of the same message processor:
  * `MainProc`     embeds src/src/PetClinicReportProcessor.js (the variant with a
                   dead-letter-queue reprocessor and an `isRetry` flag);
  * `BasicProc`    embeds src/unnamed/part_001 (the minimal variant);
  * `EnhancedProc` embeds src/unnamed/part_002 (the variant with the inline
                   report mapper and a per-message try/catch in its poll loop).

JavaScript dynamic values are modelled by `JsValue`; a parsed JSON message body
is an association list from field names to values (`Payload`), where a missing
key reads as `undefined`, exactly as JS property access does.  `JSON.parse`
either throws or yields such an object, so an SQS message is modelled with
`body : Option Payload` (`none` = the body did not parse).  The queue client is
modelled as reliable: a delete call that is issued succeeds; the claims under
study count the delete calls the code issues, so transient provider failures
are out of scope.  Time (`new Date().toISOString()`) and the process
environment (`process.env.*`) enter as explicit parameters.
-/

/-- A JavaScript value as far as this pipeline inspects values: the processors
only test truthiness, interpolate into template literals, and copy values
verbatim into the report object. -/
inductive JsValue where
  | vUndefined : JsValue
  | vNull : JsValue
  | vBool : Bool → JsValue
  | vNum : Int → JsValue
  | vStr : String → JsValue
deriving DecidableEq

/-- JavaScript truthiness: `undefined`, `null`, `false`, `0` and the empty
string are falsy, everything else this model can represent is truthy. -/
def truthy : JsValue → Bool
  | .vUndefined => false
  | .vNull => false
  | .vBool b => b
  | .vNum n => n != 0
  | .vStr s => !s.isEmpty

/-- JavaScript string coercion, as performed by template literals and by `+`
with a string operand. -/
def jsToString : JsValue → String
  | .vUndefined => "undefined"
  | .vNull => "null"
  | .vBool true => "true"
  | .vBool false => "false"
  | .vNum n => toString n
  | .vStr s => s

/-- A parsed JSON object body: field names mapped to values. -/
def Payload : Type := List (String × JsValue)

instance : DecidableEq Payload := by
  unfold Payload
  infer_instance

/-- JS property access `obj[field]`: the first binding wins, a missing key
reads as `undefined`. -/
def getField : Payload → String → JsValue
  | [], _ => .vUndefined
  | (k, v) :: rest, f => if k == f then v else getField rest f

/-- Remove a field from a payload (used to compare a falsy field with a
missing one). -/
def removeField (f : String) : Payload → Payload
  | [] => []
  | (k, v) :: rest => if k == f then removeField f rest else (k, v) :: removeField f rest

/-- An environment variable read: `process.env.X` is a string when set,
`undefined` when not. -/
def envToJs : Option String → JsValue
  | none => .vUndefined
  | some s => .vStr s

/-- The JS idiom `process.env.X || defaultValue`: the default is taken when the
variable is unset or bound to the (falsy) empty string. -/
def envOr (v : Option String) (d : String) : String :=
  match v with
  | none => d
  | some s => if s.isEmpty then d else s

/-- Truthiness test `!x` on a raw environment variable, as in the
`if (!queueUrl)` start-up guards. -/
def envFalsy : Option String → Bool
  | none => true
  | some s => s.isEmpty

/-- One delete call issued against the queue provider: the target queue URL
and the receipt handle passed to `DeleteMessageCommand`. -/
structure DeleteCall where
  queue : String
  receiptHandle : String
deriving DecidableEq

/-- An SQS message as the processors see it: its receipt handle and the result
of `JSON.parse(message.Body)` (`none` when the body does not parse). -/
structure Message where
  receiptHandle : String
  body : Option Payload

/-- `petInfo` sub-record of the produced report. -/
structure PetInfo where
  name : JsValue
  type : JsValue
deriving DecidableEq

/-- `ownerInfo` sub-record: the display name is built by a template literal,
hence a string. -/
structure OwnerInfo where
  id : JsValue
  name : String
deriving DecidableEq

/-- `vetInfo` sub-record. -/
structure VetInfo where
  id : JsValue
  name : String
deriving DecidableEq

/-- `appointment` sub-record of the produced report. -/
structure Appointment where
  date : JsValue
  time : JsValue
  type : JsValue
  description : JsValue
deriving DecidableEq

/-- The report object built in src/unnamed/part_002, lines 32-54. -/
structure ReportRecord where
  id : JsValue
  petInfo : PetInfo
  ownerInfo : OwnerInfo
  vetInfo : VetInfo
  appointment : Appointment
  processedAt : String
  environment : String
deriving DecidableEq

/-- The required-field list of src/unnamed/part_002, lines 25-27 (the same 13
fields, in the same order, that src/src/PetClinicReportProcessor.js tests in
its `&&` chain, lines 60-64). -/
def requiredFields : List String :=
  ["petId", "petName", "petType", "ownerId", "ownerName",
   "ownerSurname", "vetId", "vetName", "vetSurname",
   "appointmentDate", "appointmentTime", "appointmentType", "appointmentDescription"]

namespace EnhancedProc

/-- part_002 line 29: `requiredFields.every(field => messageBody && messageBody[field])`.
The payload itself is an object here, hence truthy, so the conjunct
`messageBody &&` reduces to the field test. -/
def isValid (b : Payload) : Bool :=
  requiredFields.all (fun f => truthy (getField b f))

/-- Errors of part_002's `processMessage`.  The catch block at lines 68-71
rethrows every inner error wrapped in a new `Error`, modelled by `wrapped`. -/
inductive Err where
  | parseFailure : Err
  | missingFields : Err
  | wrapped : Err → Err
deriving DecidableEq

/-- part_002 lines 32-54: the inline report object literal.  Template literals
coerce with `jsToString`; `environment` evaluates
`process.env.NODE_ENV || 'production'`. -/
def buildReport (nodeEnv : Option String) (now : String) (b : Payload) : ReportRecord :=
  { id := getField b "petId"
  , petInfo :=
      { name := getField b "petName"
      , type := getField b "petType" }
  , ownerInfo :=
      { id := getField b "ownerId"
      , name := jsToString (getField b "ownerName") ++ " " ++ jsToString (getField b "ownerSurname") }
  , vetInfo :=
      { id := getField b "vetId"
      , name := jsToString (getField b "vetName") ++ " " ++ jsToString (getField b "vetSurname") }
  , appointment :=
      { date := getField b "appointmentDate"
      , time := getField b "appointmentTime"
      , type := getField b "appointmentType"
      , description := getField b "appointmentDescription" }
  , processedAt := now
  , environment := envOr nodeEnv "production" }

/-- part_002 lines 18-72, `processMessage`: parse the body, validate, build the
report (`processReportData` always resolves), then delete from the module-level
`queueUrl`; on invalid input throw before any delete.  The result pairs the
outcome with the list of delete calls issued. -/
def processMessage (qUrl : String) (nodeEnv : Option String) (now : String)
    (m : Message) : Except Err ReportRecord × List DeleteCall :=
  match m.body with
  | none => (.error (.wrapped .parseFailure), [])
  | some b =>
    if isValid b then
      (.ok (buildReport nodeEnv now b), [{ queue := qUrl, receiptHandle := m.receiptHandle }])
    else
      (.error (.wrapped .missingFields), [])

/-- part_002 lines 129-135: the poll loop body iterates the received batch and
wraps each `processMessage` in its own try/catch, so a per-message failure is
recorded (logged) and the iteration continues; the cycle itself cannot fail. -/
def pollCycle (qUrl : String) (nodeEnv : Option String) (now : String) :
    List Message → List (Except Err ReportRecord) × List DeleteCall
  | [] => ([], [])
  | m :: rest =>
    let r := processMessage qUrl nodeEnv now m
    let tailRes := pollCycle qUrl nodeEnv now rest
    (r.1 :: tailRes.1, r.2 ++ tailRes.2)

/-- part_002 line 5: `process.env.SQS_QUEUE_URL || 'https://sqs...'`. -/
def queueUrlOf (qEnv : Option String) : String :=
  envOr qEnv "https://sqs.us-east-1.amazonaws.com/123456789012/pet-clinic-reports"

end EnhancedProc

/-- What a variant of `pollQueue` does at start-up about its queue URL: log
and return early, call `process.exit` with a code, or begin polling the given
queue URL. -/
inductive PollStart where
  | earlyReturn : String → PollStart
  | exitProcess : Nat → String → PollStart
  | beginPolling : String → PollStart
deriving DecidableEq

/-- Whether the start-up path terminates the process with a non-zero exit
code. -/
def PollStart.exitsNonzero : PollStart → Bool
  | .exitProcess c _ => c != 0
  | _ => false

namespace MainProc

/-- The module-level queue URLs in scope while src/src/PetClinicReportProcessor.js
processes messages (lines 5-6): the primary queue URL and the DLQ URL. -/
structure Config where
  queueUrl : String
  dlqUrl : String

/-- Line 6: `process.env.SQS_DLQ_URL || process.env.SQS_QUEUE_URL + '-dlq'`.
`+` with the string `'-dlq'` coerces an unset `SQS_QUEUE_URL` (that is, the
value `undefined`) to the string `"undefined"`. -/
def dlqUrlOf (dlqEnv qEnv : Option String) : String :=
  envOr dlqEnv (jsToString (envToJs qEnv) ++ "-dlq")

/-- Lines 15-20: the receive parameters used for every DLQ drain. -/
structure ReceiveParams where
  queueUrl : String
  maxNumberOfMessages : Nat
  waitTimeSeconds : Nat
  visibilityTimeout : Nat
deriving DecidableEq

/-- The `ReceiveMessageCommand` parameters of `processDeadLetterQueue`. -/
def dlqReceiveParams (dlq : String) : ReceiveParams :=
  { queueUrl := dlq, maxNumberOfMessages := 10, waitTimeSeconds := 5, visibilityTimeout := 30 }

/-- Errors of `processMessage` in src/src/PetClinicReportProcessor.js.  The
catch block at lines 78-81 rethrows every inner error wrapped in a new
`Error`, modelled by `wrapped`.  `refErrorPetClinicReport` is the
`ReferenceError` raised by line 65: the identifier `PetClinicReport` is never
imported into this module (and the class exported by src/src/PetClinicReport.js
has no static `from` method either), so evaluating
`PetClinicReport.from(message.body)` throws unconditionally. -/
inductive Err where
  | parseFailure : Err
  | invalidFormat : Err
  | refErrorPetClinicReport : Err
  | wrapped : Err → Err
deriving DecidableEq

/-- Lines 60-64: the `&&` chain over `messageBody` and its 13 fields, in
source order.  The leading `messageBody &&` conjunct is true here because the
parsed body in hand is an object. -/
def isValid (b : Payload) : Bool :=
  truthy (getField b "petId") && truthy (getField b "petName") &&
  truthy (getField b "petType") && truthy (getField b "ownerId") &&
  truthy (getField b "ownerName") && truthy (getField b "ownerSurname") &&
  truthy (getField b "vetId") && truthy (getField b "vetName") &&
  truthy (getField b "vetSurname") && truthy (getField b "appointmentDate") &&
  truthy (getField b "appointmentTime") && truthy (getField b "appointmentType") &&
  truthy (getField b "appointmentDescription")

/-- Line 65: `const report = PetClinicReport.from(message.body);`.
`PetClinicReport` is not bound in this module (no `require` imports it), so
this line throws a `ReferenceError` whenever it is reached, regardless of its
argument (`message.body`, which is itself `undefined`: the SQS field is
`Body`). -/
def mapStep (_arg : JsValue) : Except Err Unit :=
  .error .refErrorPetClinicReport

/-- Lines 52-82, `processMessage(message, isRetry)`: parse, validate (throw on
invalid), run the map step, then delete from `isRetry ? dlqUrl : queueUrl`.
Every inner throw is caught and rethrown wrapped (line 80).  The result pairs
the outcome with the delete calls issued. -/
def processMessage (cfg : Config) (m : Message) (isRetry : Bool) :
    Except Err Unit × List DeleteCall :=
  match m.body with
  | none => (.error (.wrapped .parseFailure), [])
  | some b =>
    if isValid b then
      match mapStep .vUndefined with
      | .error e => (.error (.wrapped e), [])
      | .ok _ =>
        (.ok (), [{ queue := if isRetry then cfg.dlqUrl else cfg.queueUrl
                  , receiptHandle := m.receiptHandle }])
    else
      (.error (.wrapped .invalidFormat), [])

/-- Lines 28-40, the body of `processDeadLetterQueue` for one DLQ message:
`processMessage(message, true)`, then on success a further
`deleteMessage(message.ReceiptHandle, dlqUrl)`; on failure the catch leaves
the message in the DLQ and no additional call is made. -/
def dlqAttempt (cfg : Config) (m : Message) : Except Err Unit × List DeleteCall :=
  match processMessage cfg m true with
  | (.ok _, ds) => (.ok (), ds ++ [{ queue := cfg.dlqUrl, receiptHandle := m.receiptHandle }])
  | (.error e, ds) => (.error e, ds)

/-- Lines 107-110: `if (!queueUrl) { console.error(...); return; }` — the poll
loop logs and returns; no `process.exit` is called on this path. -/
def pollQueueStart (qEnv : Option String) : PollStart :=
  if envFalsy qEnv then .earlyReturn "SQS_QUEUE_URL environment variable is not set"
  else .beginPolling (envOr qEnv "")

end MainProc

namespace BasicProc

/-- part_001 lines 55-58: `if (!queueUrl) { console.error(...); process.exit(1); }`. -/
def pollQueueStart (qEnv : Option String) : PollStart :=
  if envFalsy qEnv then .exitProcess 1 "SQS_QUEUE_URL environment variable is not set"
  else .beginPolling (envOr qEnv "")

end BasicProc

/-- part_002 lines 110-113 test `!queueUrl` on the already-defaulted module
constant, so the guard can never fire: the default URL is non-empty. -/
def EnhancedProc.pollQueueStart (qEnv : Option String) : PollStart :=
  if (EnhancedProc.queueUrlOf qEnv).isEmpty then
    .earlyReturn "SQS_QUEUE_URL environment variable is not set"
  else .beginPolling (EnhancedProc.queueUrlOf qEnv)

/-! ## Helper lemmas -/

/-- Closed form of `MainProc.processMessage`: since the map step always
throws, every path returns an error and issues no delete call. -/
theorem MainProc.processMessage_eq (cfg : Config) (m : Message) (isRetry : Bool) :
    processMessage cfg m isRetry =
      (match m.body with
       | none => (.error (.wrapped .parseFailure), [])
       | some b =>
         if isValid b then (.error (.wrapped .refErrorPetClinicReport), [])
         else (.error (.wrapped .invalidFormat), [])) := by
  unfold processMessage
  cases m.body with
  | none => rfl
  | some b =>
    by_cases h : isValid b <;> simp [h, mapStep]

/-- `MainProc.processMessage` never issues a delete call. -/
theorem MainProc.processMessage_deletes_nil (cfg : Config) (m : Message) (isRetry : Bool) :
    (processMessage cfg m isRetry).2 = [] := by
  rw [processMessage_eq]
  cases m.body with
  | none => rfl
  | some b => by_cases h : isValid b <;> simp [h]

/-- Closed form of `MainProc.dlqAttempt`: the inner attempt always errors, so
the drain leaves the message in the DLQ and issues no delete call. -/
theorem MainProc.dlqAttempt_eq (cfg : Config) (m : Message) :
    dlqAttempt cfg m =
      (match m.body with
       | none => (.error (.wrapped .parseFailure), [])
       | some b =>
         if isValid b then (.error (.wrapped .refErrorPetClinicReport), [])
         else (.error (.wrapped .invalidFormat), [])) := by
  unfold dlqAttempt
  rw [processMessage_eq]
  cases m.body with
  | none => rfl
  | some b => by_cases h : isValid b <;> simp [h]

/-- `MainProc.dlqAttempt` never issues a delete call. -/
theorem MainProc.dlqAttempt_deletes_nil (cfg : Config) (m : Message) :
    (dlqAttempt cfg m).2 = [] := by
  rw [dlqAttempt_eq]
  cases m.body with
  | none => rfl
  | some b => by_cases h : isValid b <;> simp [h]

/-- The two validators agree: the `&&` chain of
src/src/PetClinicReportProcessor.js tests exactly the fields of part_002's
`requiredFields.every`, in the same order. -/
theorem isValid_bridge (b : Payload) : MainProc.isValid b = EnhancedProc.isValid b := by
  simp [MainProc.isValid, EnhancedProc.isValid, requiredFields, List.all_cons, List.all_nil,
    Bool.and_assoc]

/-- A falsy required field defeats `EnhancedProc.isValid`. -/
theorem EnhancedProc.isValid_false_of_falsy {b : Payload} {f : String}
    (hf : f ∈ requiredFields) (hv : truthy (getField b f) = false) :
    isValid b = false := by
  apply Bool.eq_false_iff.mpr
  intro h
  have := List.all_eq_true.mp h f hf
  rw [hv] at this
  exact Bool.false_ne_true this

/-- Looking up a field after removing it reads `undefined`. -/
theorem getField_removeField (f : String) (b : Payload) :
    getField (removeField f b) f = .vUndefined := by
  induction b with
  | nil => rfl
  | cons kv rest ih =>
    obtain ⟨k, v⟩ := kv
    by_cases h : k == f
    · simp [removeField, h, ih]
    · simp only [removeField, h, if_neg]
      simp [getField, h, ih]

/-! ## Concrete inputs -/

/-- A payload with all 13 required fields bound to non-empty strings. -/
def validPayload : Payload :=
  [("petId", .vStr "p1"), ("petName", .vStr "Rex"), ("petType", .vStr "dog"),
   ("ownerId", .vStr "o1"), ("ownerName", .vStr "Ann"), ("ownerSurname", .vStr "Lee"),
   ("vetId", .vStr "v1"), ("vetName", .vStr "Bob"), ("vetSurname", .vStr "Kim"),
   ("appointmentDate", .vStr "2026-01-05"), ("appointmentTime", .vStr "10:00"),
   ("appointmentType", .vStr "checkup"), ("appointmentDescription", .vStr "annual visit")]

/-- `validPayload` with `petName` bound to `null`. -/
def nullNamePayload : Payload :=
  [("petId", .vStr "p1"), ("petName", .vNull), ("petType", .vStr "dog"),
   ("ownerId", .vStr "o1"), ("ownerName", .vStr "Ann"), ("ownerSurname", .vStr "Lee"),
   ("vetId", .vStr "v1"), ("vetName", .vStr "Bob"), ("vetSurname", .vStr "Kim"),
   ("appointmentDate", .vStr "2026-01-05"), ("appointmentTime", .vStr "10:00"),
   ("appointmentType", .vStr "checkup"), ("appointmentDescription", .vStr "annual visit")]

/-- `validPayload` with `petId` bound to the number `0` (present but falsy). -/
def zeroIdPayload : Payload :=
  [("petId", .vNum 0), ("petName", .vStr "Rex"), ("petType", .vStr "dog"),
   ("ownerId", .vStr "o1"), ("ownerName", .vStr "Ann"), ("ownerSurname", .vStr "Lee"),
   ("vetId", .vStr "v1"), ("vetName", .vStr "Bob"), ("vetSurname", .vStr "Kim"),
   ("appointmentDate", .vStr "2026-01-05"), ("appointmentTime", .vStr "10:00"),
   ("appointmentType", .vStr "checkup"), ("appointmentDescription", .vStr "annual visit")]

/-- `validPayload` with `appointmentType` bound to the boolean `false`. -/
def falseTypePayload : Payload :=
  [("petId", .vStr "p1"), ("petName", .vStr "Rex"), ("petType", .vStr "dog"),
   ("ownerId", .vStr "o1"), ("ownerName", .vStr "Ann"), ("ownerSurname", .vStr "Lee"),
   ("vetId", .vStr "v1"), ("vetName", .vStr "Bob"), ("vetSurname", .vStr "Kim"),
   ("appointmentDate", .vStr "2026-01-05"), ("appointmentTime", .vStr "10:00"),
   ("appointmentType", .vBool false), ("appointmentDescription", .vStr "annual visit")]

/-- A concrete configuration for the main variant. -/
def cfg0 : MainProc.Config :=
  { queueUrl := "https://q/main", dlqUrl := "https://q/main-dlq" }

/-- A message whose body passed JSON parsing and carries `validPayload`. -/
def validMsg : Message := { receiptHandle := "rh-valid", body := some validPayload }

/-- A message whose body parses but misses a required field (`petName` is
`null`). -/
def invalidMsg : Message := { receiptHandle := "rh-invalid", body := some nullNamePayload }

/-! ## Claim theorems -/

/-- C1: the claim says a successful validate-and-map yields exactly one delete
against the originating queue.  In src/src/PetClinicReportProcessor.js the map
step (line 65) throws unconditionally — `PetClinicReport` is never imported —
so no delete call is ever issued, by `processMessage` or by the DLQ drain: the
success path, and with it the single-delete contract, is unreachable. -/
theorem c1_main_variant_issues_no_deletes :
    (∀ (cfg : MainProc.Config) (m : Message) (isRetry : Bool),
       (MainProc.processMessage cfg m isRetry).2 = []) ∧
    (∀ (cfg : MainProc.Config) (m : Message), (MainProc.dlqAttempt cfg m).2 = []) :=
  ⟨MainProc.processMessage_deletes_nil, MainProc.dlqAttempt_deletes_nil⟩

/-- C2: the claim says mapping never fails on a validated input.  In
src/src/PetClinicReportProcessor.js the mapping step raises a `ReferenceError`
for every input that passes validation, because line 65 references the
unimported `PetClinicReport`. -/
theorem c2_map_step_raises_on_validated_input (cfg : MainProc.Config) (m : Message)
    (b : Payload) (hb : m.body = some b) (hv : MainProc.isValid b = true) :
    (MainProc.processMessage cfg m false).1 =
      .error (MainProc.Err.wrapped .refErrorPetClinicReport) := by
  rw [MainProc.processMessage_eq, hb]
  simp [hv]

/-- C2 witness: a fully valid payload passes validation yet the mapping step
raises. -/
theorem c2_witness :
    MainProc.isValid validPayload = true ∧
    (MainProc.processMessage cfg0 validMsg false).1 =
      .error (MainProc.Err.wrapped .refErrorPetClinicReport) :=
  ⟨by decide,
   c2_map_step_raises_on_validated_input cfg0 validMsg validPayload rfl (by decide)⟩

/-- C3: a payload in which some required field is absent, `null`, or the empty
string fails validation in both variants and makes part_002's `processMessage`
throw the missing-fields error, yielding no report. -/
theorem c3_missing_field_rejected (p : Payload) (f : String)
    (hf : f ∈ requiredFields)
    (hv : getField p f = .vUndefined ∨ getField p f = .vNull ∨ getField p f = .vStr "") :
    EnhancedProc.isValid p = false ∧ MainProc.isValid p = false ∧
    ∀ (qUrl : String) (nodeEnv : Option String) (now rh : String),
      (EnhancedProc.processMessage qUrl nodeEnv now ⟨rh, some p⟩).1 =
        .error (EnhancedProc.Err.wrapped .missingFields) := by
  have hfalsy : truthy (getField p f) = false := by
    rcases hv with h | h | h <;> rw [h] <;> rfl
  have h1 : EnhancedProc.isValid p = false := EnhancedProc.isValid_false_of_falsy hf hfalsy
  refine ⟨h1, by rw [isValid_bridge]; exact h1, ?_⟩
  intro qUrl nodeEnv now rh
  simp [EnhancedProc.processMessage, h1]

/-- C3 witness: `petName` bound to `null` is rejected and produces the
missing-fields error. -/
theorem c3_witness :
    EnhancedProc.isValid nullNamePayload = false ∧
    MainProc.isValid nullNamePayload = false ∧
    (EnhancedProc.processMessage "https://q/main" none "t0" invalidMsg).1 =
      .error (EnhancedProc.Err.wrapped .missingFields) :=
  ⟨(c3_missing_field_rejected nullNamePayload "petName" (by decide) (Or.inr (Or.inl rfl))).1,
   (c3_missing_field_rejected nullNamePayload "petName" (by decide) (Or.inr (Or.inl rfl))).2.1,
   (c3_missing_field_rejected nullNamePayload "petName" (by decide)
      (Or.inr (Or.inl rfl))).2.2 "https://q/main" none "t0" "rh-invalid"⟩

/-- C4: whenever the validate/map path of a message fails, zero delete calls
are issued for it — by part_002's `processMessage`, and by the DLQ drain of
src/src/PetClinicReportProcessor.js, which leaves a failed message in the
DLQ. -/
theorem c4_no_delete_on_failure :
    (∀ (qUrl : String) (nodeEnv : Option String) (now : String) (m : Message)
       (e : EnhancedProc.Err),
       (EnhancedProc.processMessage qUrl nodeEnv now m).1 = .error e →
       (EnhancedProc.processMessage qUrl nodeEnv now m).2 = []) ∧
    (∀ (cfg : MainProc.Config) (m : Message) (e : MainProc.Err),
       (MainProc.dlqAttempt cfg m).1 = .error e → (MainProc.dlqAttempt cfg m).2 = []) := by
  constructor
  · intro qUrl nodeEnv now m e h
    rcases m with ⟨rh, _ | b⟩
    · rfl
    · by_cases hv : EnhancedProc.isValid b
      · simp [EnhancedProc.processMessage, hv] at h
      · simp [EnhancedProc.processMessage, hv]
  · intro cfg m e _
    exact MainProc.dlqAttempt_deletes_nil cfg m

/-- C4 witness: a message with a missing required field is processed without
any delete call, on the primary path and on the DLQ drain. -/
theorem c4_witness :
    (EnhancedProc.processMessage "https://q/main" none "t0" invalidMsg).2 = [] ∧
    (MainProc.dlqAttempt cfg0 invalidMsg).2 = [] :=
  ⟨c4_no_delete_on_failure.1 "https://q/main" none "t0" invalidMsg
     (.wrapped .missingFields) rfl,
   c4_no_delete_on_failure.2 cfg0 invalidMsg (.wrapped .invalidFormat) rfl⟩

/-- C5: processing the same message twice is idempotent in part_002 — if the
first attempt succeeds, the second does not error and yields a report equal to
the first except possibly in `processedAt`; in particular the `environment`
field is the same, since both reads see the same process environment. -/
theorem c5_duplicate_processing_idempotent (qUrl : String) (nodeEnv : Option String)
    (now1 now2 : String) (m : Message) (r1 : ReportRecord)
    (h : (EnhancedProc.processMessage qUrl nodeEnv now1 m).1 = .ok r1) :
    (EnhancedProc.processMessage qUrl nodeEnv now2 m).1 =
      .ok { r1 with processedAt := now2 } ∧
    ({ r1 with processedAt := now2 } : ReportRecord).environment = r1.environment := by
  rcases m with ⟨rh, _ | b⟩
  · simp [EnhancedProc.processMessage] at h
  · by_cases hv : EnhancedProc.isValid b
    · have h' : EnhancedProc.buildReport nodeEnv now1 b = r1 := by
        simpa [EnhancedProc.processMessage, hv] using h
      subst h'
      refine ⟨?_, rfl⟩
      simp only [EnhancedProc.processMessage, hv, if_pos, Except.ok.injEq]
      rfl
    · simp [EnhancedProc.processMessage, hv] at h

/-- C5 witness: the valid message processed at two distinct timestamps yields
the same report up to `processedAt`, with the same `environment`. -/
theorem c5_witness :
    (EnhancedProc.processMessage "https://q/main" none "t2" validMsg).1 =
      .ok { EnhancedProc.buildReport none "t1" validPayload with processedAt := "t2" } ∧
    ({ EnhancedProc.buildReport none "t1" validPayload with
        processedAt := "t2" } : ReportRecord).environment =
      (EnhancedProc.buildReport none "t1" validPayload).environment :=
  c5_duplicate_processing_idempotent "https://q/main" none "t1" "t2" validMsg
    (EnhancedProc.buildReport none "t1" validPayload) rfl

/-- C6: in part_002's poll loop each received message is processed inside its
own try/catch, so the batch outcome is exactly the independent per-message
outcome list — a failure of one message neither changes any other message's
outcome nor aborts the cycle (the cycle always returns a plain value, and the
loop schedules its next iteration unconditionally). -/
theorem c6_batch_failure_is_local (qUrl : String) (nodeEnv : Option String)
    (now : String) (msgs : List Message) (i : Nat) :
    ((EnhancedProc.pollCycle qUrl nodeEnv now msgs).1).length = msgs.length ∧
    ((EnhancedProc.pollCycle qUrl nodeEnv now msgs).1)[i]? =
      (msgs[i]?).map (fun m => (EnhancedProc.processMessage qUrl nodeEnv now m).1) := by
  induction msgs generalizing i with
  | nil => simp [EnhancedProc.pollCycle]
  | cons m rest ih =>
    refine ⟨?_, ?_⟩
    · simpa [EnhancedProc.pollCycle] using (ih 0).1
    · cases i with
      | zero => simp [EnhancedProc.pollCycle]
      | succ j => simpa [EnhancedProc.pollCycle] using (ih j).2

/-- C7 counterexample: with `SQS_QUEUE_URL` unset, the poll loop of
src/src/PetClinicReportProcessor.js logs a descriptive error and merely
returns — no path calls `process.exit` with a non-zero code, so the process
does not fail fast as the claim requires. -/
theorem c7_counterexample :
    MainProc.pollQueueStart none =
      PollStart.earlyReturn "SQS_QUEUE_URL environment variable is not set" ∧
    (MainProc.pollQueueStart none).exitsNonzero = false :=
  ⟨rfl, rfl⟩

/-- C7 amended: with the queue URL unset, part_001 logs a descriptive error
and exits with code 1; src/src/PetClinicReportProcessor.js logs the error but
only returns from the poll loop, without a non-zero exit; part_002 substitutes
its hard-coded default queue URL and begins polling. -/
theorem c7_startup_behavior_by_variant :
    BasicProc.pollQueueStart none =
      PollStart.exitProcess 1 "SQS_QUEUE_URL environment variable is not set" ∧
    (MainProc.pollQueueStart none).exitsNonzero = false ∧
    EnhancedProc.pollQueueStart none =
      PollStart.beginPolling "https://sqs.us-east-1.amazonaws.com/123456789012/pet-clinic-reports" :=
  ⟨rfl, rfl, rfl⟩

/-- C8: for a validated payload whose name fields are strings, part_002
produces exactly the claimed record shape: `id` copied verbatim from `petId`,
owner and vet display names joined by exactly one space, nested
pet/owner/vet/appointment sub-records, `processedAt` and `environment`, and a
single delete call for the message. -/
theorem c8_report_shape (qUrl : String) (nodeEnv : Option String) (now rh : String)
    (p : Payload) (ownGiven ownSur vetGiven vetSur : String)
    (hv : EnhancedProc.isValid p = true)
    (hon : getField p "ownerName" = .vStr ownGiven)
    (hos : getField p "ownerSurname" = .vStr ownSur)
    (hvn : getField p "vetName" = .vStr vetGiven)
    (hvs : getField p "vetSurname" = .vStr vetSur) :
    EnhancedProc.processMessage qUrl nodeEnv now ⟨rh, some p⟩ =
      (.ok { id := getField p "petId"
           , petInfo := { name := getField p "petName", type := getField p "petType" }
           , ownerInfo := { id := getField p "ownerId", name := ownGiven ++ " " ++ ownSur }
           , vetInfo := { id := getField p "vetId", name := vetGiven ++ " " ++ vetSur }
           , appointment :=
               { date := getField p "appointmentDate"
               , time := getField p "appointmentTime"
               , type := getField p "appointmentType"
               , description := getField p "appointmentDescription" }
           , processedAt := now
           , environment := envOr nodeEnv "production" },
       [{ queue := qUrl, receiptHandle := rh }]) := by
  simp [EnhancedProc.processMessage, EnhancedProc.buildReport, hv, hon, hos, hvn, hvs,
    jsToString]

/-- C8 witness: the concrete valid payload maps to the expected record, with
display names "Ann Lee" and "Bob Kim" and `id` equal to the `petId` value. -/
theorem c8_witness :
    EnhancedProc.processMessage "https://q/main" none "t1" validMsg =
      (.ok { id := .vStr "p1"
           , petInfo := { name := .vStr "Rex", type := .vStr "dog" }
           , ownerInfo := { id := .vStr "o1", name := "Ann Lee" }
           , vetInfo := { id := .vStr "v1", name := "Bob Kim" }
           , appointment :=
               { date := .vStr "2026-01-05"
               , time := .vStr "10:00"
               , type := .vStr "checkup"
               , description := .vStr "annual visit" }
           , processedAt := "t1"
           , environment := "production" },
       [{ queue := "https://q/main", receiptHandle := "rh-valid" }]) :=
  c8_report_shape "https://q/main" none "t1" "rh-valid" validPayload
    "Ann" "Lee" "Bob" "Kim" (by decide) rfl rfl rfl rfl

/-- C9: validation tests truthiness, so a required field that is present but
bound to any falsy value (`0` and `false` included) defeats validation in both
variants, exactly as if the field were absent. -/
theorem c9_falsy_field_rejected (p : Payload) (f : String)
    (hf : f ∈ requiredFields) (hv : truthy (getField p f) = false) :
    EnhancedProc.isValid p = false ∧
    EnhancedProc.isValid (removeField f p) = false ∧
    MainProc.isValid p = false := by
  have h1 := EnhancedProc.isValid_false_of_falsy hf hv
  have h2 : truthy (getField (removeField f p) f) = false := by
    rw [getField_removeField]
    rfl
  exact ⟨h1, EnhancedProc.isValid_false_of_falsy hf h2,
    by rw [isValid_bridge]; exact h1⟩

/-- C9 witness: `petId` bound to the number `0`, and `appointmentType` bound
to `false`, are both rejected, and rejection agrees with outright removal of
the field. -/
theorem c9_witness :
    (EnhancedProc.isValid zeroIdPayload = false ∧
     EnhancedProc.isValid (removeField "petId" zeroIdPayload) = false ∧
     MainProc.isValid zeroIdPayload = false) ∧
    EnhancedProc.isValid falseTypePayload = false :=
  ⟨c9_falsy_field_rejected zeroIdPayload "petId" (by decide) (by decide),
   (c9_falsy_field_rejected falseTypePayload "appointmentType" (by decide) (by decide)).1⟩

/-- C10: with neither `SQS_DLQ_URL` nor `SQS_QUEUE_URL` set, the DLQ URL of
src/src/PetClinicReportProcessor.js evaluates to the literal string
"undefined-dlq" (JS coerces the undefined queue URL into the concatenation),
and that string is the queue reference used by the DLQ receive parameters and
by every delete call the DLQ drain could issue. -/
theorem c10_dlq_url_is_undefined_dlq :
    MainProc.dlqUrlOf none none = "undefined-dlq" ∧
    (MainProc.dlqReceiveParams (MainProc.dlqUrlOf none none)).queueUrl = "undefined-dlq" ∧
    ∀ (q : String) (m : Message),
      (((MainProc.dlqAttempt { queueUrl := q, dlqUrl := MainProc.dlqUrlOf none none } m).2).all
        (fun c => c.queue == "undefined-dlq")) = true := by
  refine ⟨rfl, rfl, ?_⟩
  intro q m
  rw [MainProc.dlqAttempt_deletes_nil]
  rfl

/-! ## Supporting development: the DLQ delete routing of
src/src/PetClinicReportProcessor.js with the outcome of line 65 abstracted.
`processMessageWith` is lines 52-82 verbatim except that the map step is a
parameter; instantiating it with the actual `mapStep` recovers
`processMessage`.  This makes visible what the control flow would do if the
map step could succeed: `processMessage` itself deletes from the DLQ when
`isRetry` is set (line 76), and `processDeadLetterQueue` then deletes the same
receipt handle from the DLQ again (line 34) — two delete calls for one
successfully reprocessed DLQ message. -/

/-- Lines 52-82 with the outcome of line 65 given by `mapFn`. -/
def MainProc.processMessageWith (mapFn : JsValue → Except Err Unit)
    (cfg : Config) (m : Message) (isRetry : Bool) :
    Except Err Unit × List DeleteCall :=
  match m.body with
  | none => (.error (.wrapped .parseFailure), [])
  | some b =>
    if isValid b then
      match mapFn .vUndefined with
      | .error e => (.error (.wrapped e), [])
      | .ok _ =>
        (.ok (), [{ queue := if isRetry then cfg.dlqUrl else cfg.queueUrl
                  , receiptHandle := m.receiptHandle }])
    else
      (.error (.wrapped .invalidFormat), [])

/-- Lines 28-40 with the outcome of line 65 given by `mapFn`. -/
def MainProc.dlqAttemptWith (mapFn : JsValue → Except Err Unit)
    (cfg : Config) (m : Message) : Except Err Unit × List DeleteCall :=
  match processMessageWith mapFn cfg m true with
  | (.ok _, ds) => (.ok (), ds ++ [{ queue := cfg.dlqUrl, receiptHandle := m.receiptHandle }])
  | (.error e, ds) => (.error e, ds)

/-- Instantiating the abstracted control flow at the actual map step recovers
the faithful model. -/
theorem MainProc.processMessageWith_mapStep (cfg : Config) (m : Message) (isRetry : Bool) :
    processMessageWith mapStep cfg m isRetry = processMessage cfg m isRetry := by
  rfl

/-- Had the map step succeeded on a valid DLQ message, the code would issue
two delete calls for that one message, both against the DLQ with its receipt
handle: the conflated delete of line 76 plus the drain delete of line 34. -/
theorem MainProc.dlq_success_double_delete (mapFn : JsValue → Except Err Unit)
    (cfg : Config) (rh : String) (b : Payload)
    (hmap : mapFn .vUndefined = .ok ()) (hv : isValid b = true) :
    dlqAttemptWith mapFn cfg ⟨rh, some b⟩ =
      (.ok (), [{ queue := cfg.dlqUrl, receiptHandle := rh },
                { queue := cfg.dlqUrl, receiptHandle := rh }]) := by
  simp [dlqAttemptWith, processMessageWith, hv, hmap]
